import Mathlib

/-!
# Verification of the `interpolation` crate (easing functions, lerp, spatial)

Shallow embedding of `src/ease.rs`, `src/lerp.rs` and `src/lib.rs`.

* Floating-point scalars are idealised as exact real numbers (`ℝ`) for the
  easing layer (which uses `sin`, `cos`, `sqrt`, `powf`) and as exact
  rationals (`ℚ`) for the lerp layer, matching the spec's stance that the
  contract is curve-shape-exact rather than bit-exact.  The lerp layer's
  exactness idealisation is relied on only at inputs whose intermediates
  the program's f32/f64 scalars represent exactly.
* `std::f64::consts::PI_2` of the targeted pre-1.0 standard library is
  `pi * 2.0`, so the sine and elastic families use `2 * π` for it.
* Machine integers are modelled as `ℤ` / `ℕ` with explicit range checks for
  the fixed widths; an arithmetic operation that leaves the width's range
  yields `none` (overflow: a panic in a debug build, a wrap in release).
* `f32::round` / `f64::round` (round half away from zero) is modelled
  exactly by `rnd` on `ℚ`.
-/

open Real

/-- `normalized` from `src/ease.rs`: clamp the input to `[0, 1]`.
`if p > 1 { 1 } else if p < 0 { 0 } else { p }`. -/
noncomputable def normalized (p : ℝ) : ℝ :=
  if p > 1 then 1
  else if p < 0 then 0
  else p

/-- `quadratic_in` from `src/ease.rs`: `p = normalized(p); p * p`. -/
noncomputable def quadratic_in (p : ℝ) : ℝ :=
  let p := normalized p;
  p * p

/-- `quadratic_out` from `src/ease.rs`: `-(p * (p - 2))`. -/
noncomputable def quadratic_out (p : ℝ) : ℝ :=
  let p := normalized p;
  -(p * (p - 2))

/-- `quadratic_in_out` from `src/ease.rs`. -/
noncomputable def quadratic_in_out (p : ℝ) : ℝ :=
  let p := normalized p;
  if p < 1/2 then p * p * 2
  else (-2 * p * p) + (4 * p) - 1

/-- `cubic_in` from `src/ease.rs`. -/
noncomputable def cubic_in (p : ℝ) : ℝ :=
  let p := normalized p;
  p * p * p

/-- `cubic_out` from `src/ease.rs`: `f = p - 1; f * f * f + 1`. -/
noncomputable def cubic_out (p : ℝ) : ℝ :=
  let p := normalized p;
  let f := p - 1;
  f * f * f + 1

/-- `cubic_in_out` from `src/ease.rs`. -/
noncomputable def cubic_in_out (p : ℝ) : ℝ :=
  let p := normalized p;
  if p < 1/2 then p * p * p * 4
  else
    let f := (2 * p) - 2;
    f * f * f * (1/2) + 1

/-- `quartic_in` from `src/ease.rs`. -/
noncomputable def quartic_in (p : ℝ) : ℝ :=
  let p := normalized p;
  p * p * p * p

/-- `quartic_out` from `src/ease.rs`: `f = p - 1; f * f * f * (1 - p) + 1`. -/
noncomputable def quartic_out (p : ℝ) : ℝ :=
  let p := normalized p;
  let f := p - 1;
  f * f * f * (1 - p) + 1

/-- `quartic_in_out` from `src/ease.rs`. -/
noncomputable def quartic_in_out (p : ℝ) : ℝ :=
  let p := normalized p;
  if p < 1/2 then 8 * p * p * p * p
  else
    let f := p - 1;
    -8 * f * f * f * f + 1

/-- `quintic_in` from `src/ease.rs`. -/
noncomputable def quintic_in (p : ℝ) : ℝ :=
  let p := normalized p;
  p * p * p * p * p

/-- `quintic_out` from `src/ease.rs`: `f = p - 1; f^5 + 1`. -/
noncomputable def quintic_out (p : ℝ) : ℝ :=
  let p := normalized p;
  let f := p - 1;
  f * f * f * f * f + 1

/-- `quintic_in_out` from `src/ease.rs`. -/
noncomputable def quintic_in_out (p : ℝ) : ℝ :=
  let p := normalized p;
  if p < 1/2 then p * p * p * p * p * 16
  else
    let f := (2 * p) - 2;
    f * f * f * f * f * (1/2) + 1

/-- `sine_in` from `src/ease.rs`: `sin((p - 1) * PI_2) + 1`.  The imported
`std::f64::consts::PI_2` of the targeted pre-1.0 standard library is
`pi * 2.0` (the crate later inlined `6.28318…` for it), so `PI_2 = 2π`
here, not `π/2`. -/
noncomputable def sine_in (p : ℝ) : ℝ :=
  let p := normalized p;
  Real.sin ((p - 1) * (2 * π)) + 1

/-- `sine_out` from `src/ease.rs`: `sin(p * PI_2)` with `PI_2 = 2π`. -/
noncomputable def sine_out (p : ℝ) : ℝ :=
  let p := normalized p;
  Real.sin (p * (2 * π))

/-- `sine_in_out` from `src/ease.rs`: `0.5 * (1 - cos(p * π))`. -/
noncomputable def sine_in_out (p : ℝ) : ℝ :=
  let p := normalized p;
  (1/2) * (1 - Real.cos (p * π))

/-- `circular_in` from `src/ease.rs`: `1 - sqrt(1 - p * p)`. -/
noncomputable def circular_in (p : ℝ) : ℝ :=
  let p := normalized p;
  1 - Real.sqrt (1 - p * p)

/-- `circular_out` from `src/ease.rs`: `sqrt((2 - p) * p)`. -/
noncomputable def circular_out (p : ℝ) : ℝ :=
  let p := normalized p;
  Real.sqrt ((2 - p) * p)

/-- `circular_in_out` from `src/ease.rs`. -/
noncomputable def circular_in_out (p : ℝ) : ℝ :=
  let p := normalized p;
  if p < 1/2 then (1/2) * (1 - Real.sqrt (1 - 4 * (p * p)))
  else (1/2) * (Real.sqrt (-((2 * p) - 3) * ((2 * p) - 1)) + 1)

/-- `exponential_in` from `src/ease.rs`:
`if p == 0 { p } else { 2.powf(10 * (p - 1)) }`. -/
noncomputable def exponential_in (p : ℝ) : ℝ :=
  let p := normalized p;
  if p = 0 then p
  else (2 : ℝ) ^ (10 * (p - 1))

/-- `exponential_out` from `src/ease.rs`:
`if p == 1 { p } else { 1 - 2.powf(-10 * p) }`. -/
noncomputable def exponential_out (p : ℝ) : ℝ :=
  let p := normalized p;
  if p = 1 then p
  else 1 - (2 : ℝ) ^ (-10 * p)

/-- `exponential_in_out` from `src/ease.rs`.  The source binds BOTH guard
constants to `Float::one()` (`let _0: T = Float::one(); let _1: T =
Float::one();`), so the guard is literally `p == 1 || p == 1`; the
embedding reproduces this faithfully. -/
noncomputable def exponential_in_out (p : ℝ) : ℝ :=
  let p := normalized p;
  if p = 1 ∨ p = 1 then p
  else if p < 1/2 then (1/2) * (2 : ℝ) ^ ((20 * p) - 10)
  else -(1/2) * (2 : ℝ) ^ ((-20 * p) + 10) + 1

/-- `elastic_in` from `src/ease.rs`:
`sin(13 * PI_2 * p) * 2.powf(10 * (p - 1))` with `PI_2 = 2π` (pre-1.0
standard-library constant). -/
noncomputable def elastic_in (p : ℝ) : ℝ :=
  let p := normalized p;
  Real.sin (13 * (2 * π) * p) * (2 : ℝ) ^ (10 * (p - 1))

/-- `elastic_out` from `src/ease.rs`:
`sin(-13 * PI_2 * (p + 1)) * 2.powf(-10 * p) + 1` with `PI_2 = 2π`. -/
noncomputable def elastic_out (p : ℝ) : ℝ :=
  let p := normalized p;
  Real.sin (-13 * (2 * π) * (p + 1)) * (2 : ℝ) ^ (-10 * p) + 1

/-- `elastic_in_out` from `src/ease.rs`, with `PI_2 = 2π`. -/
noncomputable def elastic_in_out (p : ℝ) : ℝ :=
  let p := normalized p;
  if p < 1/2 then
    (1/2) * Real.sin (13 * (2 * π) * (2 * p)) * (2 : ℝ) ^ (10 * ((2 * p) - 1))
  else
    (1/2) * (Real.sin (-13 * (2 * π) * ((2 * p - 1) + 1)) * (2 : ℝ) ^ (-10 * (2 * p - 1)) + 2)

/-- `back_in` from `src/ease.rs`: `p * p * p - p * sin(p * π)`. -/
noncomputable def back_in (p : ℝ) : ℝ :=
  let p := normalized p;
  p * p * p - p * Real.sin (p * π)

/-- `back_out` from `src/ease.rs`: `f = 1 - p; 1 - (f * f * f - f * sin(f * π))`. -/
noncomputable def back_out (p : ℝ) : ℝ :=
  let p := normalized p;
  let f := 1 - p;
  1 - (f * f * f - f * Real.sin (f * π))

/-- `back_in_out` from `src/ease.rs`. -/
noncomputable def back_in_out (p : ℝ) : ℝ :=
  let p := normalized p;
  if p < 1/2 then
    let f := 2 * p;
    (1/2) * (f * f * f - f * Real.sin (f * π))
  else
    let f := 1 - (2 * p - 1);
    (1/2) * (1 - (f * f * f - f * Real.sin (f * π))) + 1/2

/-- `bounce_out` from `src/ease.rs`: four-segment piecewise quadratic with
breakpoints `4/11`, `8/11`, `9/10`. -/
noncomputable def bounce_out (p : ℝ) : ℝ :=
  let p := normalized p;
  if p < 4/11 then (121 * p * p) / 16
  else if p < 8/11 then (363/40) * p * p - (99/10) * p + 17/5
  else if p < 9/10 then (4356/361) * p * p - (35442/1805) * p + 16061/1805
  else (54/5) * p * p - (513/25) * p + 268/25

/-- `bounce_in` from `src/ease.rs`: `1 - bounce_out(1 - p)`. -/
noncomputable def bounce_in (p : ℝ) : ℝ :=
  let p := normalized p;
  1 - bounce_out (1 - p)

/-- `bounce_in_out` from `src/ease.rs`. -/
noncomputable def bounce_in_out (p : ℝ) : ℝ :=
  let p := normalized p;
  if p < 1/2 then (1/2) * bounce_in (p * 2)
  else (1/2) * bounce_out (p * 2 - 1) + 1/2

/-- The `EaseFunction` enum from `src/ease.rs` (30 variants). -/
inductive EaseFunction : Type
  | EaseQuadraticIn | EaseQuadraticOut | EaseQuadraticInOut
  | EaseCubicIn | EaseCubicOut | EaseCubicInOut
  | EaseQuarticIn | EaseQuarticOut | EaseQuarticInOut
  | EaseQuinticIn | EaseQuinticOut | EaseQuinticInOut
  | EaseSineIn | EaseSineOut | EaseSineInOut
  | EaseCircularIn | EaseCircularOut | EaseCircularInOut
  | EaseExponentialIn | EaseExponentialOut | EaseExponentialInOut
  | EaseElasticIn | EaseElasticOut | EaseElasticInOut
  | EaseBackIn | EaseBackOut | EaseBackInOut
  | EaseBounceIn | EaseBounceOut | EaseBounceInOut
  deriving DecidableEq

/-- `EaseFunction::calc` from `src/ease.rs` (`calc` is a Lean keyword,
hence the suffix): exhaustive dispatch to the 30 easing functions. -/
noncomputable def EaseFunction.calcEase : EaseFunction → ℝ → ℝ
  | .EaseQuadraticIn, p => quadratic_in p
  | .EaseQuadraticOut, p => quadratic_out p
  | .EaseQuadraticInOut, p => quadratic_in_out p
  | .EaseCubicIn, p => cubic_in p
  | .EaseCubicOut, p => cubic_out p
  | .EaseCubicInOut, p => cubic_in_out p
  | .EaseQuarticIn, p => quartic_in p
  | .EaseQuarticOut, p => quartic_out p
  | .EaseQuarticInOut, p => quartic_in_out p
  | .EaseQuinticIn, p => quintic_in p
  | .EaseQuinticOut, p => quintic_out p
  | .EaseQuinticInOut, p => quintic_in_out p
  | .EaseSineIn, p => sine_in p
  | .EaseSineOut, p => sine_out p
  | .EaseSineInOut, p => sine_in_out p
  | .EaseCircularIn, p => circular_in p
  | .EaseCircularOut, p => circular_out p
  | .EaseCircularInOut, p => circular_in_out p
  | .EaseExponentialIn, p => exponential_in p
  | .EaseExponentialOut, p => exponential_out p
  | .EaseExponentialInOut, p => exponential_in_out p
  | .EaseElasticIn, p => elastic_in p
  | .EaseElasticOut, p => elastic_out p
  | .EaseElasticInOut, p => elastic_in_out p
  | .EaseBackIn, p => back_in p
  | .EaseBackOut, p => back_out p
  | .EaseBackInOut, p => back_in_out p
  | .EaseBounceIn, p => bounce_in p
  | .EaseBounceOut, p => bounce_out p
  | .EaseBounceInOut, p => bounce_in_out p

/-- The spec's own wording of `bounce_out` ("four-segment piecewise
quadratic keyed on the breakpoints 4/11, 8/11 and 9/10 with the exact
rational coefficients"), written from the spec to compare with the
source's `bounce_out`. -/
noncomputable def bounce_out_spec (p : ℝ) : ℝ :=
  if p < 4/11 then (121/16) * p^2
  else if p < 8/11 then (363/40) * p^2 - (99/10) * p + 17/5
  else if p < 9/10 then (4356/361) * p^2 - (35442/1805) * p + 16061/1805
  else (54/5) * p^2 - (513/25) * p + 268/25

/-- Rust `f32::round` / `f64::round` (round half away from zero), on the
exact-rational idealisation of the float scalar. -/
def rnd (x : ℚ) : ℤ :=
  if 0 ≤ x then ⌊x + 1/2⌋ else -⌊-x + 1/2⌋

/-- `impl Lerp for f32/f64` from `src/lerp.rs`:
`self + (other - self) * scalar`.  The float arithmetic is idealised as
exact rationals; this erases the rounding of `other - self`, so the model
is invoked below only where every intermediate is exact in the program
too (equal endpoints, where the difference is exactly `0`). -/
def lerpFloat (a b t : ℚ) : ℚ := a + (b - a) * t

/-- The saturating float-to-signed-integer cast (`as $int`) at width `w`. -/
def intSat (w : ℕ) (x : ℤ) : ℤ := max (-(2 ^ (w - 1))) (min x (2 ^ (w - 1) - 1))

/-- `impl Lerp for i8/i16/i32/i64` (width `w`) from `src/lerp.rs`:
`self + ((other - self) as $scalar * scalar).round() as $int`, with the
two integer operations `other - self` and `self + …` checked against the
width's range (`none` = overflow: a panic in a debug build).  The
`as $scalar` cast is modelled as exact, which is faithful only while the
difference fits the scalar's significand (`2^24` for f32, `2^53` for
f64); the theorems below use it only at differences of `0` or `255`,
where the cast is exact in the program too. -/
def lerpInt (w : ℕ) (a b : ℤ) (t : ℚ) : Option ℤ :=
  if -(2 ^ (w - 1)) ≤ b - a ∧ b - a < 2 ^ (w - 1) then
    if -(2 ^ (w - 1)) ≤ a + intSat w (rnd (((b - a : ℤ) : ℚ) * t)) ∧
        a + intSat w (rnd (((b - a : ℤ) : ℚ) * t)) < 2 ^ (w - 1) then
      some (a + intSat w (rnd (((b - a : ℤ) : ℚ) * t)))
    else none
  else none

/-- The saturating float-to-unsigned-integer cast (`as $uint`) at width `w`. -/
def uintSat (w : ℕ) (x : ℤ) : ℕ := (max 0 (min x (2 ^ w - 1))).toNat

/-- `impl Lerp for u8/u16/u32/u64` (width `w`) from `src/lerp.rs`: the
subtraction is guarded on `self <= other`; the final addition
`self + …` and subtraction `self - …` are checked against the width's
range (`none` = overflow/underflow: a panic in a debug build).  As in
`lerpInt`, the `as $scalar` cast is modelled as exact and the model is
relied on only at differences that the scalar represents exactly. -/
def lerpUint (w : ℕ) (a b : ℕ) (t : ℚ) : Option ℕ :=
  if a ≤ b then
    if a + uintSat w (rnd (((b - a : ℕ) : ℚ) * t)) < 2 ^ w then
      some (a + uintSat w (rnd (((b - a : ℕ) : ℚ) * t)))
    else none
  else
    if uintSat w (rnd (((a - b : ℕ) : ℚ) * t)) ≤ a then
      some (a - uintSat w (rnd (((a - b : ℕ) : ℚ) * t)))
    else none

/-- `impl Lerp for [T; N]` from `src/lerp.rs` at a float element type:
element-wise lerp with the shared scalar. -/
def lerpArray (n : ℕ) (a b : Fin n → ℚ) (t : ℚ) : Fin n → ℚ :=
  fun i => lerpFloat (a i) (b i) t

lemma normalized_idem (p : ℝ) : normalized (normalized p) = normalized p := by
  unfold normalized
  split_ifs <;> linarith

lemma normalized_eq_clamp (p : ℝ) : normalized p = max 0 (min p 1) := by
  unfold normalized
  split_ifs with h1 h2
  · rw [min_eq_right (by linarith), max_eq_right (by norm_num)]
  · rw [min_eq_left (by linarith), max_eq_left (by linarith)]
  · rw [min_eq_left (by linarith), max_eq_right (by linarith)]

lemma normalized_zero : normalized 0 = 0 := by
  unfold normalized
  norm_num

lemma normalized_one : normalized 1 = 1 := by
  unfold normalized
  norm_num

lemma normalized_of_mem {p : ℝ} (h0 : 0 ≤ p) (h1 : p ≤ 1) : normalized p = p := by
  unfold normalized
  split_ifs <;> linarith

lemma normalized_nonneg (p : ℝ) : 0 ≤ normalized p := by
  unfold normalized
  split_ifs <;> linarith

lemma normalized_le_one (p : ℝ) : normalized p ≤ 1 := by
  unfold normalized
  split_ifs <;> linarith

lemma normalized_mono {p q : ℝ} (h : p ≤ q) : normalized p ≤ normalized q := by
  unfold normalized
  split_ifs <;> linarith

lemma bounce_out_zero : bounce_out 0 = 0 := by
  simp only [bounce_out, normalized_zero]
  norm_num

lemma bounce_out_one : bounce_out 1 = 1 := by
  simp only [bounce_out, normalized_one]
  norm_num

/-- C1: every one of the 30 public easing functions clamps its input to
`[0,1]` first, so `f p = f (clamp p 0 1)` for every scalar `p`; inputs
below `0` behave as `0` and inputs above `1` behave as `1`. -/
theorem ease_calc_clamps (f : EaseFunction) (p : ℝ) :
    f.calcEase p = f.calcEase (max 0 (min p 1)) := by
  rw [← normalized_eq_clamp]
  cases f <;>
    simp only [EaseFunction.calcEase, quadratic_in, quadratic_out, quadratic_in_out,
      cubic_in, cubic_out, cubic_in_out, quartic_in, quartic_out, quartic_in_out,
      quintic_in, quintic_out, quintic_in_out, sine_in, sine_out, sine_in_out,
      circular_in, circular_out, circular_in_out, exponential_in, exponential_out,
      exponential_in_out, elastic_in, elastic_out, elastic_in_out, back_in, back_out,
      back_in_out, bounce_in, bounce_out, bounce_in_out, normalized_idem]

/-- C3 (code bug in the source): the claim fails for the sine and
elastic families because the pre-1.0 `PI_2` constant is `2π`, not `π/2`:
`sine_in 0 = sin(-2π) + 1 = 1 ≠ 0` and
`elastic_in 1 = sin(26π) · 2^0 = 0 ≠ 1`, while the endpoints the claim
names do hold at the other end of each of these two functions. -/
theorem sine_elastic_endpoint_bug :
    sine_in 0 = 1 ∧ sine_in 0 ≠ 0 ∧ elastic_in 1 = 0 ∧ elastic_in 1 ≠ 1 ∧
    sine_in 1 = 1 ∧ elastic_in 0 = 0 := by
  have hs : sine_in 0 = 1 := by
    simp only [sine_in, normalized_zero]
    rw [show ((0:ℝ) - 1) * (2 * π) = -(2 * π) by ring, Real.sin_neg, Real.sin_two_pi]
    norm_num
  have he : elastic_in 1 = 0 := by
    simp only [elastic_in, normalized_one]
    rw [show (13:ℝ) * (2 * π) * 1 = 0 + (13:ℤ) * (2 * π) by push_cast; ring,
      Real.sin_add_int_mul_two_pi, Real.sin_zero, zero_mul]
  refine ⟨hs, by rw [hs]; norm_num, he, by rw [he]; norm_num, ?_, ?_⟩
  · simp only [sine_in, normalized_one]
    norm_num [Real.sin_zero]
  · simp only [elastic_in, normalized_zero]
    rw [mul_zero, Real.sin_zero, zero_mul]

/-- C2 (code bug in the source): because `exponential_in_out` binds its
zero constant to `Float::one()`, the `p == 0` special case is unreachable
and the general formula gives `exponential_in_out 0 = 1/2048 ≠ 0`; at
`p = 1` the special case does return `1` as claimed. -/
theorem exponential_in_out_zero_bug :
    exponential_in_out 0 = 1/2048 ∧ exponential_in_out 0 ≠ 0 ∧
    exponential_in_out 1 = 1 := by
  have h : exponential_in_out 0 = 1/2048 := by
    simp only [exponential_in_out, normalized_zero]
    rw [if_neg (by norm_num), if_pos (by norm_num : (0:ℝ) < 1/2)]
    rw [show (20:ℝ) * 0 - 10 = ((-10 : ℤ) : ℝ) by push_cast; ring, Real.rpow_intCast]
    norm_num
  refine ⟨h, by rw [h]; norm_num, ?_⟩
  simp [exponential_in_out, normalized_one]

/-- C4: for clamped inputs in `[0,1]`, `bounce_out` agrees with the
spec's four-segment piecewise quadratic with the exact rational
coefficients and breakpoints `4/11`, `8/11`, `9/10`. -/
theorem bounce_out_piecewise (p : ℝ) (h0 : 0 ≤ p) (h1 : p ≤ 1) :
    bounce_out p = bounce_out_spec p := by
  simp only [bounce_out, bounce_out_spec, normalized_of_mem h0 h1]
  split_ifs <;> ring

theorem bounce_out_piecewise_witness :
    (0:ℝ) ≤ 1/2 ∧ (1/2:ℝ) ≤ 1 ∧ bounce_out (1/2) = bounce_out_spec (1/2) :=
  ⟨by norm_num, by norm_num, bounce_out_piecewise (1/2) (by norm_num) (by norm_num)⟩

/-- C5: for every `p` in `[0,1]`, `bounce_in p = 1 - bounce_out (1 - p)`. -/
theorem bounce_in_reflects_bounce_out (p : ℝ) (h0 : 0 ≤ p) (h1 : p ≤ 1) :
    bounce_in p = 1 - bounce_out (1 - p) := by
  simp only [bounce_in, normalized_of_mem h0 h1]

theorem bounce_in_reflects_bounce_out_witness :
    (0:ℝ) ≤ 1/3 ∧ (1/3:ℝ) ≤ 1 ∧ bounce_in (1/3) = 1 - bounce_out (1 - 1/3) :=
  ⟨by norm_num, by norm_num, bounce_in_reflects_bounce_out (1/3) (by norm_num) (by norm_num)⟩

/-- C9: for every scalar input `p` (no range precondition),
`bounce_out p` lies in `[0,1]`. -/
theorem bounce_out_mem_unit (p : ℝ) : 0 ≤ bounce_out p ∧ bounce_out p ≤ 1 := by
  have h0 : 0 ≤ normalized p := normalized_nonneg p
  have h1 : normalized p ≤ 1 := normalized_le_one p
  simp only [bounce_out]
  set q := normalized p with hq
  split_ifs with h2 h3 h4
  · have ha : (0:ℝ) ≤ 4/11 - q := by linarith
    exact ⟨by positivity, by nlinarith [mul_nonneg h0 ha]⟩
  · have ha : (0:ℝ) ≤ q - 4/11 := by linarith
    have hb : (0:ℝ) ≤ 8/11 - q := by linarith
    exact ⟨by nlinarith [sq_nonneg (q - 6/11)], by nlinarith [mul_nonneg ha hb]⟩
  · have ha : (0:ℝ) ≤ q - 8/11 := by linarith
    have hb : (0:ℝ) ≤ 9/10 - q := by linarith
    exact ⟨by nlinarith [sq_nonneg (q - 179/220)], by nlinarith [mul_nonneg ha hb]⟩
  · have ha : (0:ℝ) ≤ q - 9/10 := by linarith
    have hb : (0:ℝ) ≤ 1 - q := by linarith
    exact ⟨by nlinarith [sq_nonneg (q - 19/20)], by nlinarith [mul_nonneg ha hb]⟩

/-- C10: `quadratic_in` is monotone nondecreasing on the whole scalar
domain. -/
theorem quadratic_in_monotone (p q : ℝ) (h : p ≤ q) :
    quadratic_in p ≤ quadratic_in q := by
  simp only [quadratic_in]
  exact mul_le_mul (normalized_mono h) (normalized_mono h)
    (normalized_nonneg p) (normalized_nonneg q)

theorem quadratic_in_monotone_witness :
    (-1 : ℝ) ≤ 2 ∧ quadratic_in (-1) ≤ quadratic_in 2 :=
  ⟨by norm_num, quadratic_in_monotone (-1) 2 (by norm_num)⟩

lemma rnd_zero : rnd 0 = 0 := by
  norm_num [rnd]

lemma rnd_intCast (d : ℤ) : rnd (d : ℚ) = d := by
  unfold rnd
  have hhalf : ⌊(1/2 : ℚ)⌋ = 0 := by norm_num
  split_ifs with h
  · rw [add_comm, Int.floor_add_int, hhalf, zero_add]
  · rw [show -(d:ℚ) + 1/2 = 1/2 + ((-d : ℤ) : ℚ) by push_cast; ring,
      Int.floor_add_int, hhalf, zero_add, neg_neg]




lemma intSat_eq {w : ℕ} {x : ℤ} (h1 : -(2 ^ (w - 1)) ≤ x) (h2 : x < 2 ^ (w - 1)) :
    intSat w x = x := by
  have h3 : x ≤ 2 ^ (w - 1) - 1 := by
    have := Int.lt_iff_add_one_le.mp h2
    linarith
  unfold intSat
  rw [min_eq_left h3, max_eq_right h1]

lemma intSat_zero (w : ℕ) : intSat w 0 = 0 := by
  have hp : (0:ℤ) < 2 ^ (w - 1) := by positivity
  exact intSat_eq (by linarith) hp

lemma uintSat_eq {w : ℕ} {x : ℤ} (h1 : 0 ≤ x) (h2 : x ≤ 2 ^ w - 1) :
    uintSat w x = x.toNat := by
  unfold uintSat
  rw [min_eq_left h2, max_eq_right h1]

lemma uintSat_zero (w : ℕ) : uintSat w 0 = 0 := by
  have hp : (0:ℤ) < 2 ^ w := by positivity
  rw [uintSat_eq le_rfl (by linarith)]
  rfl

/-- C8: interpolation with equal endpoints is a fixed point for every
scalar weight, for floats, every signed width, every unsigned width, and
float arrays. -/
theorem lerp_const_fixed_point :
    (∀ (a t : ℚ), lerpFloat a a t = a) ∧
    (∀ (w : ℕ) (a : ℤ) (t : ℚ), -(2 ^ (w - 1)) ≤ a → a < 2 ^ (w - 1) →
      lerpInt w a a t = some a) ∧
    (∀ (w : ℕ) (a : ℕ) (t : ℚ), a < 2 ^ w → lerpUint w a a t = some a) ∧
    (∀ (n : ℕ) (a : Fin n → ℚ) (t : ℚ), lerpArray n a a t = a) := by
  refine ⟨?_, ?_, ?_, ?_⟩
  · intro a t
    simp [lerpFloat]
  · intro w a t h1 h2
    have hp : (0:ℤ) < 2 ^ (w - 1) := by positivity
    unfold lerpInt
    rw [sub_self, if_pos ⟨by linarith, hp⟩]
    rw [Int.cast_zero, zero_mul, rnd_zero, intSat_zero, add_zero, if_pos ⟨h1, h2⟩]
  · intro w a t h
    unfold lerpUint
    rw [if_pos le_rfl, Nat.sub_self]
    rw [Nat.cast_zero, zero_mul, rnd_zero, uintSat_zero, add_zero, if_pos h]
  · intro n a t
    funext i
    simp [lerpArray, lerpFloat]

theorem lerp_const_fixed_point_witness :
    lerpFloat 5 5 (7/3) = 5 ∧
    (-(2:ℤ) ^ 7 ≤ -7 ∧ (-7:ℤ) < 2 ^ 7) ∧ lerpInt 8 (-7) (-7) (7/3) = some (-7) ∧
    ((9:ℕ) < 2 ^ 8) ∧ lerpUint 8 9 9 (7/3) = some 9 := by
  have h := lerp_const_fixed_point
  exact ⟨h.1 5 (7/3), ⟨by norm_num, by norm_num⟩,
    h.2.1 8 (-7) (7/3) (by norm_num) (by norm_num),
    by norm_num, h.2.2.1 8 9 (7/3) (by norm_num)⟩

/-- C6 (code bug in the source), evaluated at one failing input: for the
8-bit signed width at `a = -128`, `b = 127`, the unguarded difference
`other - self = 255` leaves the width's range, so even `lerp(a, b, 0)`
overflows instead of returning `a` — against the crate's own
documentation ("When 't' is zero then 'a' has full weight").  At wider
widths the claim's exactness also fails through float precision (e.g.
f32 `lerp(2^25, 1, 1.0) = 0` and i32 `lerp(0, 2^25+1, 1.0) = 2^25`),
which lies outside this exact-scalar model. -/
theorem lerp_endpoints_exact_cex :
    lerpInt 8 (-128) 127 0 = none ∧ lerpInt 8 (-128) 127 0 ≠ some (-128) := by
  have h : lerpInt 8 (-128) 127 0 = none := by norm_num [lerpInt]
  exact ⟨h, by rw [h]; simp⟩

/-- C7 (code bug in the source), evaluated at one failing input: lerp is
not total over the integer types — for the 8-bit signed width at
`a = -128`, `b = 127`, `t = 1/2`, the intermediate difference
`other - self = 255` overflows the width (a panic in a debug build), so
"never underflows, overflows, or panics for every pair a, b" fails.
Unsigned widths fail too once float rounding enters: at u32,
`lerp(4278190076, 4294967295, 1.0)` rounds the difference `2^24 + 3` up
to `2^24 + 4` in f32 and the final addition overflows `2^32`; that case
lies outside this exact-scalar model. -/
theorem lerp_int_overflow_cex : lerpInt 8 (-128) 127 (1/2) = none := by
  norm_num [lerpInt]
